import Mathlib

/-!
Verification of the AVA screen-assistant automation core: the OCR text
heuristics (src/services/ocrService.ts), the hybrid change-detection
debounce, the auto-pilot selection/verification retry loop, and the
error-handling paths of the automation controller
(src/services/geminiService.ts).  JavaScript numbers on these code paths
are exact small fractions, modelled as rationals; JavaScript strings are
modelled as Lean strings; a JS Set of strings is modelled as a Finset.
-/

namespace Ava

/-- One step of the JS split(/\s+/) state machine over the character list.
State some acc: currently accumulating a token acc (reversed); state
none: currently inside a run of whitespace that has already terminated
the previous token. -/
def splitWsAux : Option (List Char) → List Char → List (List Char)
  | some acc, [] => [acc.reverse]
  | none, [] => [[]]
  | some acc, c :: rest =>
      if c.isWhitespace then acc.reverse :: splitWsAux none rest
      else splitWsAux (some (c :: acc)) rest
  | none, c :: rest =>
      if c.isWhitespace then splitWsAux none rest
      else splitWsAux (some [c]) rest

/-- JS String.prototype.split(/\s+/): the segments between maximal
whitespace runs, with an empty segment before a leading run and after a
trailing run, and [""] on the empty string. -/
def splitWs (s : String) : List String :=
  (splitWsAux (some []) s.data).map (fun l => String.mk l)

/-- JS String.prototype.toLowerCase, per character. -/
def jsToLower (s : String) : String :=
  String.mk (s.data.map Char.toLower)

/-- The token set of a text: new Set(text.toLowerCase().split(/\s+/)). -/
def wordSet (s : String) : Finset String :=
  (splitWs (jsToLower s)).toFinset

/-- calculateTextSimilarity from src/services/ocrService.ts: Jaccard
similarity of the word sets, 0 when either input is the empty string
(JS falsy check on a string). -/
def calculateTextSimilarity (text1 text2 : String) : ℚ :=
  if text1 = "" ∨ text2 = "" then 0
  else
    ((wordSet text1 ∩ wordSet text2).card : ℚ) /
      ((wordSet text1 ∪ wordSet text2).card : ℚ)

/-- Modelled from the spec: the Jaccard index |A∩B| / |A∪B| of two
finite token sets, the formula the spec gives for the
TextChangeEstimator contract. -/
def specJaccard (A B : Finset String) : ℚ :=
  ((A ∩ B).card : ℚ) / ((A ∪ B).card : ℚ)

/-- JS word character class \w = [A-Za-z0-9_]. -/
def jsWordChar (c : Char) : Bool :=
  c.isAlphanum || c = '_'

/-- replace(/[^\w\s]/g, ''): drop every character that is neither a word
character nor whitespace. -/
def stripNonWord (s : String) : String :=
  String.mk (s.data.filter (fun c => jsWordChar c || c.isWhitespace))

/-- The clean helper inside isTextSubset:
t.toLowerCase().replace(/[^\w\s]/g, '').split(/\s+/).filter(w => w.length > 2). -/
def cleanTokens (t : String) : List String :=
  (splitWs (stripNonWord (jsToLower t))).filter (fun w => 2 < w.length)

/-- isTextSubset from src/services/ocrService.ts: false when either
string is empty; true when the child cleans to zero tokens; otherwise
true iff more than 80% of the child's cleaned tokens occur among the
parent's cleaned tokens. -/
def isTextSubset (parentText childText : String) : Bool :=
  if parentText = "" ∨ childText = "" then false
  else
    let parentWords := cleanTokens parentText
    let childWords := cleanTokens childText
    if childWords.length = 0 then true
    else
      let matchCount := (childWords.filter (fun w => w ∈ parentWords)).length
      decide ((4 : ℚ) / 5 < (matchCount : ℚ) / (childWords.length : ℚ))

/-- The adaptive threshold of the hybrid gate in runAutomationLoop:
threshold = 0.2 + (sensitivity / 100) * 0.6. -/
def hybridThreshold (sensitivity : ℚ) : ℚ :=
  0.2 + (sensitivity / 100) * 0.6

/-- The raw-candidate-change test of one hybrid tick (runAutomationLoop):
rawChange = !isMouseCovering && !isFeedbackAdded && similarity < threshold
&& text.length > 15, where isMouseCovering = isTextSubset(lastOcrText,
text), isFeedbackAdded = isTextSubset(text, lastOcrText) and similarity
= calculateTextSimilarity(text, lastOcrText). -/
def rawChange (lastText currentText : String) (sensitivity : ℚ) : Bool :=
  let isMouseCovering := isTextSubset lastText currentText
  let isFeedbackAdded := isTextSubset currentText lastText
  let similarity := calculateTextSimilarity currentText lastText
  !isMouseCovering && (!isFeedbackAdded &&
    (decide (similarity < hybridThreshold sensitivity) &&
     decide (15 < currentText.length)))

/-- The mutable hybrid-mode session state of runAutomationLoop:
ocrStabilityCounterRef and lastOcrTextRef. -/
structure HybridState where
  counter : Nat
  lastText : String
deriving DecidableEq

/-- One hybrid tick of runAutomationLoop after OCR normalization: on a
raw candidate change the stability counter is incremented and, on
reaching 3, the tick escalates (shouldCheckAI = true), the reference
text is replaced by the current text and the counter is reset; any
non-candidate tick resets the counter.  Returns (new state, escalated).  -/
def hybridStep (s : HybridState) (text : String) (sensitivity : ℚ) :
    HybridState × Bool :=
  if rawChange s.lastText text sensitivity then
    if 3 ≤ s.counter + 1 then (⟨0, text⟩, true)
    else (⟨s.counter + 1, s.lastText⟩, false)
  else (⟨0, s.lastText⟩, false)

/-- Folding hybridStep over a sequence of observed texts, counting how
many ticks escalated to the ChangeOracle. -/
def hybridRun (s : HybridState) (sensitivity : ℚ) :
    List String → HybridState × Nat
  | [] => (s, 0)
  | t :: ts =>
      let step := hybridStep s t sensitivity
      let rest := hybridRun step.1 sensitivity ts
      (rest.1, (if step.2 then 1 else 0) + rest.2)

/-- The observable tallies of one handleAutoPilot invocation. -/
structure AutoPilotResult where
  dispatches : Nat
  verifyCalls : Nat
  verified : Bool
  nextDispatches : Nat
  terminalFailure : Bool
deriving DecidableEq

/-- The retry loop of handleAutoPilot: while attempts < 5 and not yet
verified, increment attempts, dispatch one EXECUTE_SEQUENCE action
sequence, then (when captureFrame yields a frame) make one
verifySelection call whose verdict ends the loop on success.  verify
and capture are the oracles for attempt k (1-based); fuel counts the
remaining allowed attempts.  Returns (dispatches, verifyCalls,
verified). -/
def autoPilotAux (verify capture : Nat → Bool) :
    Nat → Nat → Nat × Nat × Bool
  | 0, _ => (0, 0, false)
  | fuel + 1, attempts =>
      let a := attempts + 1
      if capture a then
        if verify a then (1, 1, true)
        else
          let r := autoPilotAux verify capture fuel a
          (r.1 + 1, r.2.1 + 1, r.2.2)
      else
        let r := autoPilotAux verify capture fuel a
        (r.1 + 1, r.2.1, r.2.2)

/-- handleAutoPilot from the app controller: the 5-attempt
select-and-verify loop, then — only if verified and clickNext — exactly
one further next-button sequence with no verification; a terminal
failure is reported iff the loop ends unverified. -/
def handleAutoPilot (verify capture : Nat → Bool) (clickNext : Bool) :
    AutoPilotResult :=
  let r := autoPilotAux verify capture 5 0
  { dispatches := r.1
    verifyCalls := r.2.1
    verified := r.2.2
    nextDispatches := if r.2.2 && clickNext then 1 else 0
    terminalFailure := !r.2.2 }

/-- One answer option of an AnalysisResult (types.ts). -/
structure OptionRecord where
  text : String
  isCorrect : Bool
  confidenceScore : ℚ
deriving DecidableEq

/-- The minimal slice of an AnalysisResult that the automation
decisions read (types.ts / geminiService.ts). -/
structure AnalysisResult where
  hasQuestion : Bool
  questions : List (List OptionRecord)
  questionText : Option String
  options : List OptionRecord
  reasoning : Option String
  error : Option String
deriving DecidableEq

/-- The outcome of the auto-select arm of performAnalysis. -/
inductive AutoSelectOutcome where
  | dispatched
  | lowConfidence
  | noClearAnswer
  | notTriggered
deriving DecidableEq

/-- The auto-select decision of performAnalysis: when autoSelect and
hasQuestion hold, find the first option with isCorrect; with none the
arm reports no clear answer; otherwise handleAutoPilot runs only when
confidenceScore >= confidenceThreshold, else the arm aborts with the
low-confidence report. -/
def autoSelectDecision (autoSelect hasQuestion : Bool)
    (options : List OptionRecord) (confidenceThreshold : ℚ) :
    AutoSelectOutcome :=
  if autoSelect && hasQuestion then
    match options.find? (fun o => o.isCorrect) with
    | some o =>
        if confidenceThreshold ≤ o.confidenceScore then .dispatched
        else .lowConfidence
    | none => .noClearAnswer
  else .notTriggered

/-- Total ActionExecutor sequences dispatched by the auto-select arm:
handleAutoPilot runs only on the dispatched outcome; every other
outcome issues zero dispatches. -/
def autoSelectDispatchCount (autoSelect hasQuestion : Bool)
    (options : List OptionRecord) (confidenceThreshold : ℚ)
    (verify capture : Nat → Bool) (clickNext : Bool) : Nat :=
  match autoSelectDecision autoSelect hasQuestion options confidenceThreshold with
  | .dispatched =>
      let r := handleAutoPilot verify capture clickNext
      r.dispatches + r.nextDispatches
  | _ => 0

/-- The final (third) attempt of analyzeScreenFrame: the
transcription-only diagnostic probe.  When the model returns non-empty
text the result has hasQuestion = true with empty questions and
options; with empty text the attempt fails (none). -/
def probeAttemptResult (modelText : String) : Option AnalysisResult :=
  if 0 < modelText.length then
    some { hasQuestion := true
           questions := []
           questionText := some modelText
           options := []
           reasoning := some "DIAGNOSTIC PROBE SUCCESS"
           error := none }
  else none

/-- JS String.prototype.includes: sub occurs contiguously in s. -/
def strIncludes (s sub : String) : Bool :=
  s.data.tails.any (fun t => sub.data.isPrefixOf t)

/-- The quota-exhaustion test of performAnalysis:
error.includes('Quota') || error.includes('429'). -/
def isQuotaError (e : String) : Bool :=
  strIncludes e "Quota" || strIncludes e "429"

/-- The controller settings read by the error path of performAnalysis. -/
structure AppSettings where
  automationEnabled : Bool
  autoSelect : Bool
  autoNext : Bool
  confidenceThreshold : ℚ
deriving DecidableEq

/-- The error branch of performAnalysis: a result carrying an error is
surfaced to the user (logged); when the error message signals quota
exhaustion the automation master switch is additionally disabled.
Returns (new settings, error surfaced). -/
def handleAnalysisOutcome (s : AppSettings) (error : Option String) :
    AppSettings × Bool :=
  match error with
  | some e =>
      (if isQuotaError e then { s with automationEnabled := false } else s,
       true)
  | none => (s, false)

/-- performAnalysis invokes analyzeScreenFrame exactly once and applies
the error branch to the returned result; the third component tallies
the analyzer invocations issued by this call (the caller performs no
retry). -/
def performAnalysisModel (s : AppSettings) (r : AnalysisResult) :
    AppSettings × Bool × Nat :=
  let h := handleAnalysisOutcome s r.error
  (h.1, h.2, 1)

/-- The session references that the smart-mode continuation mutates
after checkForNewQuestion returns (lastOcrTextRef, lastScreenshotRef). -/
structure OracleSession where
  lastOcrText : String
  lastScreenshot : Option String
deriving DecidableEq

/-- The continuation of a smart/hybrid tick after the awaited
checkForNewQuestion call returns (runAutomationLoop lines 636-656):
an error is only logged; on isNew the screenshot reference is updated,
the reference text is replaced when not in hybrid mode, and
performAnalysis is invoked — all without consulting
isAutomationRunningRef; only the final rescheduling reads the flag.
Returns (new session, performAnalysis invoked, next tick scheduled). -/
def afterOracleCheck (runningAtCompletion hybrid : Bool)
    (img currentText : String) (isNew hasError : Bool)
    (s : OracleSession) : OracleSession × Bool × Bool :=
  if hasError then (s, false, runningAtCompletion)
  else if isNew then
    ({ lastOcrText := if hybrid then s.lastOcrText else currentText
       lastScreenshot := some img },
     true, runningAtCompletion)
  else (s, false, runningAtCompletion)

/-- The guard at the top of runAutomationLoop: the tick body runs only
when the automation flag is still set and a stream exists. -/
def tickEntryGuard (running streamPresent : Bool) : Bool :=
  running && streamPresent

/-- Work tallies of one smart-mode tick. -/
structure TickCounts where
  captures : Nat
  ocrCalls : Nat
  oracleCalls : Nat
  analyzerCalls : Nat
deriving DecidableEq

/-- One smart/hybrid tick of runAutomationLoop, summarized as work
tallies: a tick arriving while processingRef is set performs no
capture, no OCR and no remote call; otherwise the frame is captured
and, when capture succeeds, hybrid mode runs OCR and gates the
ChangeOracle call on escalation, while plain smart mode always asks the
oracle; the analyzer runs only on an error-free isNew verdict.  The
tick always reschedules with delay 1000 iff the automation flag is
still set.  Returns (tallies, nextRunDelay, rescheduled). -/
def smartTick (busy hybrid captureOk escalate isNew hasError running : Bool) :
    TickCounts × Nat × Bool :=
  if busy then (⟨0, 0, 0, 0⟩, 1000, running)
  else if !captureOk then (⟨1, 0, 0, 0⟩, 1000, running)
  else
    let shouldCheckAI := if hybrid then escalate else true
    (⟨1, if hybrid then 1 else 0,
      if shouldCheckAI then 1 else 0,
      if shouldCheckAI && (!hasError && isNew) then 1 else 0⟩,
     1000, running)

theorem splitWsAux_ne_nil (l : List Char) : ∀ m, splitWsAux m l ≠ [] := by
  induction l with
  | nil =>
      intro m
      cases m <;> simp [splitWsAux]
  | cons c rest ih =>
      intro m
      cases m with
      | none =>
          by_cases h : c.isWhitespace = true <;> simp [splitWsAux, h, ih]
      | some acc =>
          by_cases h : c.isWhitespace = true <;> simp [splitWsAux, h, ih]

theorem splitWs_ne_nil (s : String) : splitWs s ≠ [] := by
  simp [splitWs]
  exact splitWsAux_ne_nil s.data (some [])

theorem wordSet_nonempty (s : String) : (wordSet s).Nonempty := by
  unfold wordSet
  rcases h : splitWs (jsToLower s) with _ | ⟨w, ws⟩
  · exact absurd h (splitWs_ne_nil _)
  · exact ⟨w, by simp⟩

/-- Claim C9: calculateTextSimilarity equals the Jaccard index of the
whitespace-split, lowercased token sets of its arguments, returns 0 when
either input is empty, is symmetric, and equals 1 on any non-empty text
compared with itself. -/
theorem c9_similarity_jaccard (a b : String) :
    (a ≠ "" → b ≠ "" →
      calculateTextSimilarity a b = specJaccard (wordSet a) (wordSet b)) ∧
    ((a = "" ∨ b = "") → calculateTextSimilarity a b = 0) ∧
    calculateTextSimilarity a b = calculateTextSimilarity b a ∧
    (a ≠ "" → calculateTextSimilarity a a = 1) := by
  refine ⟨?_, ?_, ?_, ?_⟩
  · intro ha hb
    simp [calculateTextSimilarity, specJaccard, ha, hb]
  · rintro (h | h) <;> simp [calculateTextSimilarity, h]
  · by_cases ha : a = ""
    · simp [calculateTextSimilarity, ha]
    · by_cases hb : b = ""
      · simp [calculateTextSimilarity, hb]
      · simp only [calculateTextSimilarity, ha, hb, false_or, or_false,
          if_neg ha, if_neg hb]
        rw [Finset.inter_comm, Finset.union_comm]
  · intro ha
    have h1 : (wordSet a).card ≠ 0 :=
      Finset.card_ne_zero.2 (wordSet_nonempty a)
    simp only [calculateTextSimilarity, ha, or_self, if_neg ha,
      Finset.inter_self, Finset.union_self]
    exact div_self (by exact_mod_cast h1)

/-- Witness for C9 at concrete inputs. -/
theorem c9_similarity_jaccard_witness :
    calculateTextSimilarity "ab cd" "cd ab" =
      specJaccard (wordSet "ab cd") (wordSet "cd ab") ∧
    calculateTextSimilarity "ab cd" "ab cd" = 1 :=
  ⟨(c9_similarity_jaccard "ab cd" "cd ab").1 (by decide) (by decide),
   (c9_similarity_jaccard "ab cd" "cd ab").2.2.2 (by decide)⟩

/-- Claim C5, counterexample: isTextSubset returns false, not true, when
the child string is empty (the claim asserts true for every empty
child). -/
theorem c5_empty_child_counterexample : isTextSubset "hello" "" = false := by
  decide

/-- Claim C5 as amended: isTextSubset returns false whenever either
argument is the empty string; for non-empty parent and child it returns
true whenever the child has zero tokens left after cleaning. -/
theorem c5_zero_tokens_amended (parentText childText : String)
    (hp : parentText ≠ "") (hc : childText ≠ "")
    (hz : cleanTokens childText = []) :
    isTextSubset parentText childText = true := by
  simp [isTextSubset, hp, hc, hz]

/-- Witness for the amended C5 at a concrete input: "a b" is non-empty
but cleans to zero tokens. -/
theorem c5_zero_tokens_amended_witness :
    cleanTokens "a b" = [] ∧ isTextSubset "hello world" "a b" = true :=
  ⟨by decide,
   c5_zero_tokens_amended "hello world" "a b" (by decide) (by decide)
     (by decide)⟩

theorem rawChange_eq_true_iff (lastText currentText : String) (s : ℚ) :
    rawChange lastText currentText s = true ↔
      (isTextSubset lastText currentText = false ∧
       isTextSubset currentText lastText = false ∧
       calculateTextSimilarity currentText lastText < hybridThreshold s ∧
       15 < currentText.length) := by
  simp [rawChange, Bool.and_eq_true, Bool.not_eq_true', decide_eq_true_eq]

theorem rawChange_cand :
    rawChange "" "abcdefghijklmnopqrst" 50 = true := by
  rw [rawChange_eq_true_iff]
  refine ⟨by decide, by decide, ?_, by decide⟩
  have h : calculateTextSimilarity "abcdefghijklmnopqrst" "" = 0 := by decide
  rw [h]
  norm_num [hybridThreshold]

theorem rawChange_short : rawChange "" "xy" 50 = false := by
  cases hb : rawChange "" "xy" 50
  · rfl
  · exact absurd ((rawChange_eq_true_iff "" "xy" 50).1 hb).2.2.2 (by decide)

/-- Claim C2: a hybrid tick is a raw candidate change iff neither text
is a subset of the other, similarity is below the adaptive threshold
0.2 + 0.6 * (sensitivity/100), and the normalized text is longer than
15 characters; the threshold equals 0.5, 0.8 and 0.26 at sensitivity
50, 100 and 10. -/
theorem c2_raw_candidate_gate :
    (∀ (lastText currentText : String) (sensitivity : ℚ),
        rawChange lastText currentText sensitivity = true ↔
          (isTextSubset lastText currentText = false ∧
           isTextSubset currentText lastText = false ∧
           calculateTextSimilarity currentText lastText <
             hybridThreshold sensitivity ∧
           15 < currentText.length)) ∧
    hybridThreshold 50 = 1 / 2 ∧
    hybridThreshold 100 = 4 / 5 ∧
    hybridThreshold 10 = 13 / 50 := by
  refine ⟨?_, by norm_num [hybridThreshold],
    by norm_num [hybridThreshold], by norm_num [hybridThreshold]⟩
  intro lastText currentText s
  exact rawChange_eq_true_iff lastText currentText s

/-- Claim C1: per hybrid tick, a raw candidate increments the stability
counter and a non-candidate resets it to zero; the tick escalates
exactly when the incremented counter reaches 3, and then the counter is
reset to 0 and the reference text is replaced by the current text.  Two
candidate ticks followed by a non-candidate tick produce no escalation;
exactly three consecutive candidate ticks produce exactly one. -/
theorem c1_hybrid_debounce :
    (∀ (s : HybridState) (text : String) (q : ℚ),
        ((hybridStep s text q).2 = true ↔
          (rawChange s.lastText text q = true ∧ 2 ≤ s.counter)) ∧
        (rawChange s.lastText text q = true → 2 ≤ s.counter →
          (hybridStep s text q).1 = ⟨0, text⟩) ∧
        (rawChange s.lastText text q = true → s.counter < 2 →
          (hybridStep s text q).1 = ⟨s.counter + 1, s.lastText⟩) ∧
        (rawChange s.lastText text q = false →
          (hybridStep s text q).1 = ⟨0, s.lastText⟩)) ∧
    hybridRun ⟨0, ""⟩ 50
        ["abcdefghijklmnopqrst", "abcdefghijklmnopqrst", "xy"] =
      (⟨0, ""⟩, 0) ∧
    hybridRun ⟨0, ""⟩ 50
        ["abcdefghijklmnopqrst", "abcdefghijklmnopqrst",
         "abcdefghijklmnopqrst"] =
      (⟨0, "abcdefghijklmnopqrst"⟩, 1) := by
  refine ⟨?_, ?_, ?_⟩
  · intro s text q
    by_cases h : rawChange s.lastText text q = true
    · by_cases h2 : 2 ≤ s.counter
      · have h3 : 3 ≤ s.counter + 1 := by omega
        simp [hybridStep, h, h2, h3]
      · have h3 : ¬ 3 ≤ s.counter + 1 := by omega
        simp [hybridStep, h, h2, h3]
    · have hf : rawChange s.lastText text q = false := by
        simpa using h
      simp [hybridStep, hf]
  · simp [hybridRun, hybridStep, rawChange_cand, rawChange_short]
  · simp [hybridRun, hybridStep, rawChange_cand]

/-- Witness for C1: from a counter already at 2, a candidate tick
escalates, resets the counter and adopts the new reference text. -/
theorem c1_hybrid_debounce_witness :
    (hybridStep ⟨2, ""⟩ "abcdefghijklmnopqrst" 50).1 =
      ⟨0, "abcdefghijklmnopqrst"⟩ ∧
    (hybridStep ⟨2, ""⟩ "abcdefghijklmnopqrst" 50).2 = true :=
  ⟨(c1_hybrid_debounce.1 ⟨2, ""⟩ "abcdefghijklmnopqrst" 50).2.1
      rawChange_cand (by decide),
   ((c1_hybrid_debounce.1 ⟨2, ""⟩ "abcdefghijklmnopqrst" 50).1).2
      ⟨rawChange_cand, by decide⟩⟩

theorem autoPilotAux_le (verify capture : Nat → Bool) :
    ∀ fuel att, (autoPilotAux verify capture fuel att).1 ≤ fuel ∧
      (autoPilotAux verify capture fuel att).2.1 ≤ fuel := by
  intro fuel
  induction fuel with
  | zero => intro att; simp [autoPilotAux]
  | succ n ih =>
      intro att
      by_cases hc : capture (att + 1) = true
      · by_cases hv : verify (att + 1) = true
        · simp [autoPilotAux, hc, hv]
        · have h := ih (att + 1)
          simp [autoPilotAux, hc, hv]
          omega
      · have h := ih (att + 1)
        simp [autoPilotAux, hc]
        omega

/-- Claim C3: the handleAutoPilot verification loop caps at 5 attempts;
when verification never succeeds it makes exactly 5 dispatches and 5
verification calls, reports a terminal failure, and dispatches no
advance action; when verification first succeeds on attempt k ≤ 5 it
stops after exactly k dispatches and k verification calls and, with
auto-advance enabled, dispatches exactly one next sequence with no
further verification. -/
theorem c3_autopilot_retry :
    (∀ (verify capture : Nat → Bool) (clickNext : Bool),
        (∀ k, capture k = true) → (∀ k, verify k = false) →
        handleAutoPilot verify capture clickNext =
          ⟨5, 5, false, 0, true⟩) ∧
    (∀ (verify capture : Nat → Bool) (clickNext : Bool) (k : Nat),
        (∀ j, capture j = true) →
        1 ≤ k → k ≤ 5 →
        (∀ j, 1 ≤ j → j < k → verify j = false) →
        verify k = true →
        handleAutoPilot verify capture clickNext =
          ⟨k, k, true, if clickNext then 1 else 0, false⟩) ∧
    (∀ (verify capture : Nat → Bool) (clickNext : Bool),
        (handleAutoPilot verify capture clickNext).dispatches ≤ 5 ∧
        (handleAutoPilot verify capture clickNext).verifyCalls ≤ 5) := by
  refine ⟨?_, ?_, ?_⟩
  · intro v cap c hcap hv
    simp [handleAutoPilot, autoPilotAux, hcap, hv]
  · intro v cap c k hcap h1 h5 hj hk
    interval_cases k
    · simp [handleAutoPilot, autoPilotAux, hcap, hk]
    · have e1 : v 1 = false := hj 1 (by omega) (by omega)
      simp [handleAutoPilot, autoPilotAux, hcap, e1, hk]
    · have e1 : v 1 = false := hj 1 (by omega) (by omega)
      have e2 : v 2 = false := hj 2 (by omega) (by omega)
      simp [handleAutoPilot, autoPilotAux, hcap, e1, e2, hk]
    · have e1 : v 1 = false := hj 1 (by omega) (by omega)
      have e2 : v 2 = false := hj 2 (by omega) (by omega)
      have e3 : v 3 = false := hj 3 (by omega) (by omega)
      simp [handleAutoPilot, autoPilotAux, hcap, e1, e2, e3, hk]
    · have e1 : v 1 = false := hj 1 (by omega) (by omega)
      have e2 : v 2 = false := hj 2 (by omega) (by omega)
      have e3 : v 3 = false := hj 3 (by omega) (by omega)
      have e4 : v 4 = false := hj 4 (by omega) (by omega)
      simp [handleAutoPilot, autoPilotAux, hcap, e1, e2, e3, e4, hk]
  · intro v cap c
    have h := autoPilotAux_le v cap 5 0
    exact ⟨h.1, h.2⟩

/-- Witness for C3: success on the 3rd attempt with auto-advance gives
3 dispatches, 3 verifications, one next dispatch; permanent failure
gives 5 of each, terminal failure and no advance. -/
theorem c3_autopilot_retry_witness :
    handleAutoPilot (fun n => decide (n = 3)) (fun _ => true) true =
      ⟨3, 3, true, 1, false⟩ ∧
    handleAutoPilot (fun _ => false) (fun _ => true) false =
      ⟨5, 5, false, 0, true⟩ := by
  constructor
  · have h := c3_autopilot_retry.2.1 (fun n => decide (n = 3))
      (fun _ => true) true 3 (fun _ => rfl) (by omega) (by omega)
      (by intro j hj1 hj2; interval_cases j <;> rfl) (by rfl)
    simpa using h
  · exact c3_autopilot_retry.1 (fun _ => false) (fun _ => true) false
      (fun _ => rfl) (fun _ => rfl)

/-- Claim C4: with auto-select on and a question present, when the
first isCorrect option scores below the confidence threshold the
selection arm reports low confidence and issues zero ActionExecutor
dispatches. -/
theorem c4_low_confidence_abort (options : List OptionRecord) (thr : ℚ)
    (o : OptionRecord) (verify capture : Nat → Bool) (clickNext : Bool)
    (hfind : options.find? (fun o => o.isCorrect) = some o)
    (hlt : o.confidenceScore < thr) :
    autoSelectDecision true true options thr = .lowConfidence ∧
    autoSelectDispatchCount true true options thr verify capture
      clickNext = 0 := by
  have hdec : autoSelectDecision true true options thr = .lowConfidence := by
    simp [autoSelectDecision, hfind, not_le.mpr hlt]
  exact ⟨hdec, by simp [autoSelectDispatchCount, hdec]⟩

/-- Witness for C4 at the claim's concrete numbers: confidence 0.5
against threshold 0.7. -/
theorem c4_low_confidence_abort_witness :
    autoSelectDecision true true [⟨"A", true, 0.5⟩] 0.7 = .lowConfidence ∧
    autoSelectDispatchCount true true [⟨"A", true, 0.5⟩] 0.7
      (fun _ => true) (fun _ => true) false = 0 :=
  c4_low_confidence_abort [⟨"A", true, 0.5⟩] 0.7 ⟨"A", true, 0.5⟩
    (fun _ => true) (fun _ => true) false rfl (by norm_num)

/-- Claim C6, counterexample: with the automation flag already false
when the ChangeOracle call completes on a fresh question, the code
still updates the session references and still invokes the follow-up
analysis — the in-flight result is not discarded. -/
theorem c6_discard_counterexample :
    (afterOracleCheck false false "frame1" "fresh text" true false
        ⟨"", none⟩).1 ≠ ⟨"", none⟩ ∧
    (afterOracleCheck false false "frame1" "fresh text" true false
        ⟨"", none⟩).2.1 = true := by
  decide

/-- Claim C6 as amended: flipping isRunning off during the in-flight
ChangeOracle call does not discard its result — the session updates and
the follow-up analysis are the same as when the flag stays on; only the
rescheduling of the next tick follows the flag, and a tick whose entry
guard sees the flag off does nothing. -/
theorem c6_inflight_amended :
    (∀ (running hybrid : Bool) (img currentText : String)
        (isNew hasError : Bool) (s : OracleSession),
        (afterOracleCheck running hybrid img currentText isNew hasError s).1 =
          (afterOracleCheck true hybrid img currentText isNew hasError s).1 ∧
        (afterOracleCheck running hybrid img currentText isNew hasError s).2.1 =
          (afterOracleCheck true hybrid img currentText isNew hasError s).2.1 ∧
        (afterOracleCheck running hybrid img currentText isNew hasError s).2.2 =
          running) ∧
    (∀ streamPresent : Bool, tickEntryGuard false streamPresent = false) := by
  constructor
  · intro r h img t n e s
    cases e <;> cases n <;> simp [afterOracleCheck]
  · intro sp
    rfl

/-- Claim C7: an analysis result whose error signals quota exhaustion
(contains Quota or 429) makes the controller disable the automation
master switch and surface the error, with exactly one analyzer
invocation (no caller-side retry). -/
theorem c7_quota_disables_automation (s : AppSettings)
    (r : AnalysisResult) (e : String) (he : r.error = some e)
    (hq : isQuotaError e = true) :
    (performAnalysisModel s r).1 = { s with automationEnabled := false } ∧
    (performAnalysisModel s r).1.automationEnabled = false ∧
    (performAnalysisModel s r).2.1 = true ∧
    (performAnalysisModel s r).2.2 = 1 := by
  simp [performAnalysisModel, handleAnalysisOutcome, he, hq]

/-- Witness for C7 on a concrete 429 error. -/
theorem c7_quota_disables_automation_witness :
    (performAnalysisModel ⟨true, false, false, 1⟩
        ⟨false, [], none, [], none, some "429 RESOURCE_EXHAUSTED"⟩).1 =
      ({ automationEnabled := false, autoSelect := false,
         autoNext := false, confidenceThreshold := 1 } : AppSettings) ∧
    (performAnalysisModel ⟨true, false, false, 1⟩
        ⟨false, [], none, [], none, some "429 RESOURCE_EXHAUSTED"⟩).2.1 =
      true :=
  by
  have h := c7_quota_disables_automation ⟨true, false, false, 1⟩
    ⟨false, [], none, [], none, some "429 RESOURCE_EXHAUSTED"⟩
    "429 RESOURCE_EXHAUSTED" rfl (by decide)
  exact ⟨h.1, h.2.2.1⟩

/-- Claim C8: a smart/hybrid tick arriving while an analysis is in
flight performs no capture, no OCR and no remote call, is dropped
rather than queued (same 1000 ms rescheduling delay), and the loop
still reschedules while the automation flag holds; a non-busy hybrid
tick does capture and run OCR. -/
theorem c8_busy_tick_skip :
    (∀ (hybrid captureOk escalate isNew hasError running : Bool),
        smartTick true hybrid captureOk escalate isNew hasError running =
          (⟨0, 0, 0, 0⟩, 1000, running)) ∧
    (∀ (escalate isNew hasError running : Bool),
        (smartTick false true true escalate isNew hasError
            running).1.captures = 1 ∧
        (smartTick false true true escalate isNew hasError
            running).1.ocrCalls = 1) := by
  constructor
  · intro h c e n err r
    rfl
  · intro e n err r
    exact ⟨rfl, rfl⟩

/-- Claim C10: when the transcription-only diagnostic probe returns
non-empty text, the AnalysisResult has hasQuestion = true with empty
questions and options, so hasQuestion does not imply a question record;
at the auto-select arm such a result takes the no-clear-answer path
with zero dispatches. -/
theorem c10_probe_result (modelText : String) (h : 0 < modelText.length)
    (thr : ℚ) (verify capture : Nat → Bool) (clickNext : Bool) :
    ∃ r : AnalysisResult, probeAttemptResult modelText = some r ∧
      r.hasQuestion = true ∧ r.questions = [] ∧ r.options = [] ∧
      autoSelectDecision true r.hasQuestion r.options thr =
        .noClearAnswer ∧
      autoSelectDispatchCount true r.hasQuestion r.options thr verify
        capture clickNext = 0 := by
  have hp : probeAttemptResult modelText =
      some ⟨true, [], some modelText, [],
        some "DIAGNOSTIC PROBE SUCCESS", none⟩ := by
    simp [probeAttemptResult, h]
  exact ⟨_, hp, rfl, rfl, rfl, rfl, rfl⟩

/-- Witness for C10 with the probe transcribing "abc". -/
theorem c10_probe_result_witness :
    ∃ r : AnalysisResult, probeAttemptResult "abc" = some r ∧
      r.hasQuestion = true ∧ r.questions = [] ∧ r.options = [] ∧
      autoSelectDecision true r.hasQuestion r.options 1 =
        .noClearAnswer ∧
      autoSelectDispatchCount true r.hasQuestion r.options 1
        (fun _ => true) (fun _ => true) false = 0 :=
  c10_probe_result "abc" (by decide) 1 (fun _ => true) (fun _ => true)
    false

end Ava
